import Mathlib

/-
Verification development for the Media-Streaming-Project backend.

The embedding below is a shallow model of src/backend/src/controllers/user.controller.js
and src/backend/src/models/user.model.js.  The document database is modelled as an
explicit State value threaded through each controller; every controller returns the
post-request state together with either the JSON success payload or the ApiError it
throws.  External cryptography (bcrypt, JWT signing) is modelled symbolically:
a bcrypt hash of s is the constructor value Pw.hashed s, and a signed token is a
Tok constructor carrying the payload and a freshness serial drawn from the state.
JavaScript "maybe undefined" request fields are Option values; JS truthiness for
strings (only the empty string is falsy) is the function truthyStr.
-/

namespace MediaStream

/-- Bcrypt-modelled stored secret: either a plaintext that was never hashed, or the
bcrypt hash of a plaintext.  `bcrypt.hash s` is modelled as `Pw.hashed s`; the two
constructors are distinct, so a hash is never equal to its plaintext. -/
inductive Pw
  | plain (s : String)
  | hashed (s : String)
deriving DecidableEq

/-- Model of `bcrypt.hash(s, salt)`. -/
def bcryptHashStr (s : String) : Pw := Pw.hashed s

/-- Model of `bcrypt.compare(candidate, stored)`: true exactly when `stored` is the
bcrypt hash of `candidate`.  A plaintext value stored by mistake is never a valid
bcrypt hash, so comparison against it fails. -/
def bcryptCompare (candidate : String) (stored : Pw) : Bool :=
  match stored with
  | Pw.hashed s => candidate = s
  | Pw.plain _ => false

/-- Model of signed JWTs.  `access uid serial` and `refresh uid serial` are tokens
signed with the access / refresh secret respectively (user.model.js
generateAccessToken / generateRefreshToken); `serial` models the issue time that
makes successive tokens distinct.  `forged n` stands for any string that does not
verify under the refresh secret (bad signature or expired). -/
inductive Tok
  | access (uid serial : Nat)
  | refresh (uid serial : Nat)
  | forged (n : Nat)
deriving DecidableEq

/-- Model of `jwt.verify(token, REFRESH_TOKEN_SECRET)`: succeeds with the embedded
user id exactly for tokens signed with the refresh secret (generateRefreshToken in
user.model.js signs only the `_id` claim). -/
def jwtVerifyRefresh : Tok → Option Nat
  | Tok.refresh uid _ => some uid
  | _ => none

/-- Uniform error value thrown by the controllers (utils/ApiError.js shape:
an HTTP status code plus a message). -/
structure ApiError where
  statusCode : Nat
  message : String
deriving DecidableEq

/-- A cookie set by `res.cookie(name, value, { httpOnly: true, secure: true })`. -/
structure Cookie where
  cookieName : String
  value : Tok
  httpOnly : Bool
  secure : Bool
deriving DecidableEq

/-- Persisted User document, mirroring the schema of user.model.js: username
(lowercase, trimmed, unique), fullname, email (unique), githubId, password,
profilePic, coverImg, watchList, techStack, domains, projects, refreshToken.
The Mongoose `_id` is the field `uid`.  The schema has no position or description
path, so (under the default strict mode) those registration fields are dropped at
creation time and do not appear here. -/
structure StoredUser where
  uid : Nat
  username : String
  fullname : String
  email : String
  githubId : String
  password : Pw
  profilePic : String
  coverImg : String
  watchList : List Nat
  techStack : List String
  domains : List String
  projects : List Nat
  refreshToken : Option Tok
deriving DecidableEq

/-- Pending OTP document (models/otp.model.js is not under src/; the fields used by
user.controller.js are `_id`, `email` and the hashed `otp`). -/
structure OtpRec where
  oid : Nat
  email : String
  otp : Pw
deriving DecidableEq

/-- Persisted Project document as built by addProject in user.controller.js
(models/project.model.js is not under src/; the field list is taken from the
object literal passed to `Project.create`).  `owners` stores User ids. -/
structure StoredProject where
  pid : Nat
  name : String
  repoId : String
  url : String
  description : String
  domain : String
  techStacks : List String
  stars : Option String
  owners : List Nat
  videos : List String
  images : List String
  thumbnail : String
deriving DecidableEq

/-- The pending-user payload built by registerUser and echoed back by the client to
verifyOtp as `req.body.userData`.  Every field is Option because the client
controls the echoed object. -/
structure UserData where
  fullname : Option String
  profilePic : Option String
  coverImg : Option String
  username : Option String
  email : Option String
  githubId : Option String
  password : Option String
  position : Option String
  description : Option String
deriving DecidableEq

/-- JSON view of a user as it appears inside a response body.  A field that the
query projection removed (for example by `.select("-password -refreshToken")`)
is `none`. -/
structure UserView where
  username : Option String
  fullname : Option String
  email : Option String
  githubId : Option String
  profilePic : Option String
  coverImg : Option String
  position : Option String
  description : Option String
  password : Option Pw
  refreshToken : Option Tok
deriving DecidableEq

/-- The full Mongoose document serialized with no projection, as returned by
`User.create` in verifyOtp: the (hashed) password field and the refreshToken field
are present.  The schema has no position or description path, so those keys are
absent on the document. -/
def fullDocView (u : StoredUser) : UserView :=
  { username := some u.username, fullname := some u.fullname, email := some u.email,
    githubId := some u.githubId, profilePic := some u.profilePic,
    coverImg := some u.coverImg, position := none, description := none,
    password := some u.password, refreshToken := u.refreshToken }

/-- A document fetched with `.select("-password -refreshToken")`. -/
def selectNoPasswordNoRefresh (u : StoredUser) : UserView :=
  { username := some u.username, fullname := some u.fullname, email := some u.email,
    githubId := some u.githubId, profilePic := some u.profilePic,
    coverImg := some u.coverImg, position := none, description := none,
    password := none, refreshToken := none }

/-- The explicit `userValues` object built by fetchUserData: it destructures
fullname, profilePic, coverImg, username, email, githubId, position, description
from the document.  position and description are not schema paths, so they are
undefined on the document (modelled as `none`); password and refreshToken are not
in the object at all. -/
def userValuesView (u : StoredUser) : UserView :=
  { username := some u.username, fullname := some u.fullname, email := some u.email,
    githubId := some u.githubId, profilePic := some u.profilePic,
    coverImg := some u.coverImg, position := none, description := none,
    password := none, refreshToken := none }

/-- The database state: the three collections plus fresh-id counters and the token
serial counter that models issue timestamps. -/
structure State where
  users : List StoredUser
  otps : List OtpRec
  projectsDb : List StoredProject
  nextUid : Nat
  nextOid : Nat
  nextPid : Nat
  serial : Nat
deriving DecidableEq

/-- Whitespace test for the trim model (space, tab, newline, carriage return). -/
def isWsChar (c : Char) : Bool :=
  c = ' ' || c = '\t' || c = '\n' || c = '\r'

/-- Model of the JS String trim method, computed over the character list so that
the kernel can evaluate it on concrete inputs. -/
def jsTrim (s : String) : String :=
  String.mk (((s.data.dropWhile isWsChar).reverse.dropWhile isWsChar).reverse)

/-- Model of the JS String toLowerCase method (ASCII), over the character list. -/
def jsToLower (s : String) : String :=
  String.mk (s.data.map Char.toLower)

/-- Helper of jsSplitOnComma: accumulates the current piece in reverse. -/
def splitOnCommaAux : List Char → List Char → List (List Char)
  | [], acc => [acc.reverse]
  | c :: rest, acc =>
    if c = ',' then acc.reverse :: splitOnCommaAux rest []
    else splitOnCommaAux rest (c :: acc)

/-- Model of the JS String split method with separator ",", over the character
list. -/
def jsSplitOnComma (s : String) : List String :=
  (splitOnCommaAux s.data []).map String.mk

/-- Character containment over the character list. -/
def strContainsChar (s : String) (c : Char) : Bool :=
  s.data.contains c

/-- All-characters test over the character list. -/
def strAllChars (s : String) (p : Char → Bool) : Bool :=
  s.data.all p

/-- JS truthiness of a possibly-undefined string: undefined and the empty string
are falsy, every other string is truthy. -/
def truthyStr : Option String → Bool
  | some s => s ≠ ""
  | none => false

/-- The registerUser emptiness test `field?.trim() === ""`: optional chaining makes
the test false (not failing) when the field is undefined, so only a present but
blank field is flagged. -/
def isEmptyTrim : Option String → Bool
  | some s => jsTrim s = ""
  | none => false

/-- Mongoose duplicate-key / validation failure raised by `User.create`. -/
inductive CreateErr
  | validationFailed
  | duplicateKey
deriving DecidableEq

/-- Model of `User.create(data)` under the schema of user.model.js: username,
fullname, email, githubId and password are required (a required String path also
rejects the empty string); username is lowercased and trimmed, email and the other
strings trimmed per their schema options; username and email are unique; the
pre-save hook hashes the password before it is stored; position and description are
not schema paths and are dropped by strict mode. -/
def userCreate (st : State) (d : UserData) : Except CreateErr (State × StoredUser) :=
  match d.username, d.fullname, d.email, d.githubId, d.password with
  | some un, some fn, some em, some gh, some pw =>
    if un = "" ∨ fn = "" ∨ em = "" ∨ gh = "" ∨ pw = "" then
      Except.error CreateErr.validationFailed
    else
      let uname := jsToLower (jsTrim un)
      let emailT := jsTrim em
      if st.users.any (fun u => u.username = uname ∨ u.email = emailT) then
        Except.error CreateErr.duplicateKey
      else
        let u : StoredUser :=
          { uid := st.nextUid, username := uname, fullname := jsTrim fn,
            email := emailT, githubId := jsTrim gh,
            password := bcryptHashStr pw,
            profilePic := d.profilePic.getD "", coverImg := d.coverImg.getD "",
            watchList := [], techStack := [], domains := [],
            projects := [], refreshToken := none }
        Except.ok ({ st with users := st.users ++ [u], nextUid := st.nextUid + 1 }, u)
  | _, _, _, _, _ => Except.error CreateErr.validationFailed

/-- Modelled from the spec: utils/validator.js is not under src/.  Spec: "validate
email and GitHub-handle shape".  An email shape check; an undefined value fails. -/
def isValidEmail : Option String → Bool
  | some s => s ≠ "" && strContainsChar s '@'
  | none => false

/-- Modelled from the spec: utils/validator.js is not under src/.  Spec: "validate
email and GitHub-handle shape".  A GitHub handle shape check; an undefined value
fails. -/
def isValidGitHubId : Option String → Bool
  | some s => s ≠ "" && strAllChars s (fun c => c.isAlphanum || c = '-')
  | none => false

/-- Modelled from the spec: utils/cloudinary.js is not under src/.  Spec: files
"are uploaded to object storage first; URLs ... are attached".  The upload is
modelled as a pure path-to-URL map. -/
def uploadFileToCloudinary (localPath : String) : String :=
  "https://cloudinary.example/" ++ localPath

/-- Modelled from the spec: utils/sendOtpVerificationEmail.js is not under src/.
Spec: "A one-time code is generated, hashed, stored keyed by email, and emailed to
the user."  The generated code is modelled by the fresh-id counter; the new record
replaces any previous pending record for the same email. -/
def sendOtpVerificationEmail (st : State) (email : String) : State :=
  let code := toString st.nextOid
  { st with
    otps := st.otps.filter (fun o => o.email ≠ email) ++
      [{ oid := st.nextOid, email := email, otp := bcryptHashStr code }],
    nextOid := st.nextOid + 1 }

/-- Modelled from the spec: utils/generateAccessTokenAndRefreshToken.js is not
under src/.  Spec: on login or refresh the service "issues a fresh access/refresh
pair, persists the refresh token on the User record (overwriting any prior
value)".  Freshness comes from the state serial, which is then advanced. -/
def generateAccessTokenAndRefreshToken (st : State) (uid : Nat) :
    Option (State × Tok × Tok) :=
  match st.users.find? (fun u => u.uid = uid) with
  | none => none
  | some _ =>
    let accessToken := Tok.access uid st.serial
    let refreshToken := Tok.refresh uid st.serial
    let users := st.users.map (fun u =>
      if u.uid = uid then { u with refreshToken := some refreshToken } else u)
    some ({ st with users := users, serial := st.serial + 1 }, accessToken, refreshToken)

/-- The state produced by a successful token issue for `uid`: the user's stored
refresh token is overwritten with the fresh one and the serial advances. -/
def rotatedState (st : State) (uid : Nat) : State :=
  { st with
    users := st.users.map (fun x =>
      if x.uid = uid then { x with refreshToken := some (Tok.refresh uid st.serial) } else x),
    serial := st.serial + 1 }

/-- Raw registration request: body fields plus the multer file paths. -/
structure RegisterReq where
  username : Option String
  fullname : Option String
  email : Option String
  password : Option String
  githubId : Option String
  position : Option String
  description : Option String
  profilePicFile : Option String
  coverImgFile : Option String
deriving DecidableEq

/-- Success payload of registerUser: 201 with the pending userData payload. -/
structure RegisterResp where
  status : Nat
  body : UserData
deriving DecidableEq

/-- The `$or` existence filter of registerUser over username, email and githubId.
A branch whose request value is undefined matches nothing. -/
def registerMatches (r : RegisterReq) (u : StoredUser) : Bool :=
  (match r.username with | some s => u.username = s | none => false) ||
  (match r.email with | some s => u.email = s | none => false) ||
  (match r.githubId with | some s => u.githubId = s | none => false)

/-- Translation of registerUser (user.controller.js lines 15-100): flag blank
fields, validate email and GitHub shape, reject on the three-way existence query,
upload the optional images, build the pending payload with a lowercased username,
send the OTP email (the only persistence side effect) and answer 201 with the
payload.  Calling toLowerCase on an undefined username raises a TypeError that the
catch block converts to the 500 ApiError. -/
def registerUser (st : State) (r : RegisterReq) : State × Except ApiError RegisterResp :=
  if isEmptyTrim r.username || isEmptyTrim r.fullname || isEmptyTrim r.email ||
      isEmptyTrim r.password || isEmptyTrim r.githubId || isEmptyTrim r.position ||
      isEmptyTrim r.description then
    (st, Except.error { statusCode := 400, message := "All fields are required" })
  else if !(isValidEmail r.email) then
    (st, Except.error { statusCode := 400, message := "Email not acceptable" })
  else if !(isValidGitHubId r.githubId) then
    (st, Except.error { statusCode := 400, message := "Github ID not acceptable" })
  else if (st.users.find? (registerMatches r)).isSome then
    (st, Except.error { statusCode := 409, message := "Username/email/github already exists" })
  else
    let profilePicUrl := match r.profilePicFile with
      | some p => uploadFileToCloudinary p
      | none => ""
    let coverImgUrl := match r.coverImgFile with
      | some p => uploadFileToCloudinary p
      | none => ""
    match r.username, r.email with
    | some un, some em =>
      let userData : UserData :=
        { fullname := r.fullname, profilePic := some profilePicUrl,
          coverImg := some coverImgUrl, username := some (jsToLower un),
          email := r.email, githubId := r.githubId, password := r.password,
          position := r.position, description := r.description }
      (sendOtpVerificationEmail st em,
       Except.ok { status := 201, body := userData })
    | _, _ =>
      (st, Except.error { statusCode := 500, message := "Registration failed. Please try again." })

/-- Request body of verifyOtp: the submitted code and the echoed payload. -/
structure VerifyReq where
  otp : Option String
  userData : Option UserData
deriving DecidableEq

/-- Success payload of verifyOtp: 200 with the freshly created full User document. -/
structure VerifyResp where
  status : Nat
  user : UserView
deriving DecidableEq

/-- Translation of verifyOtp (user.controller.js lines 102-133): require a truthy
code and a truthy payload email; 404 when no pending OTP record matches the email;
400 when the code fails the bcrypt comparison; otherwise delete the OTP record by
id and then create the User from the echoed payload.  A creation failure is caught
and rethrown as the 500 ApiError, after the deletion has already happened. -/
def verifyOtp (st : State) (r : VerifyReq) : State × Except ApiError VerifyResp :=
  let email := match r.userData with
    | some d => d.email
    | none => none
  if !(truthyStr r.otp) || !(truthyStr email) then
    (st, Except.error { statusCode := 400, message := "OTP and user email are required" })
  else
    match r.otp, email with
    | some userOtp, some em =>
      match st.otps.find? (fun o => o.email = em) with
      | none =>
        (st, Except.error { statusCode := 404, message := "User not found in database" })
      | some otpVer =>
        if !(bcryptCompare userOtp otpVer.otp) then
          (st, Except.error { statusCode := 400, message := "Wrong OTP" })
        else
          let st1 := { st with otps := st.otps.filter (fun o => o.oid ≠ otpVer.oid) }
          match r.userData with
          | none =>
            (st1, Except.error { statusCode := 500, message := "Verification failed. Please try again." })
          | some d =>
            match userCreate st1 d with
            | Except.error _ =>
              (st1, Except.error { statusCode := 500, message := "Verification failed. Please try again." })
            | Except.ok (st2, newUser) =>
              (st2, Except.ok { status := 200, user := fullDocView newUser })
    | _, _ =>
      (st, Except.error { statusCode := 400, message := "OTP and user email are required" })

/-- Login request body. -/
structure LoginReq where
  email : Option String
  username : Option String
  password : Option String
deriving DecidableEq

/-- JSON body of a successful login: the projected user (null when the re-fetch by
id finds nothing) plus both tokens. -/
structure LoginBody where
  user : Option UserView
  accessToken : Tok
  refreshToken : Tok
deriving DecidableEq

/-- Success payload of loginUser: status, the two set cookies, and the body. -/
structure LoginResp where
  status : Nat
  cookies : List Cookie
  body : LoginBody
deriving DecidableEq

/-- The `$or` filter of loginUser over username and email.  A branch whose request
value is undefined matches nothing. -/
def loginMatches (r : LoginReq) (u : StoredUser) : Bool :=
  (match r.username with | some s => u.username = s | none => false) ||
  (match r.email with | some s => u.email = s | none => false)

/-- Translation of loginUser (user.controller.js lines 135-201): require one truthy
identifier plus a truthy password; 404 when the `$or` lookup finds no user; 401
when bcrypt rejects the password; otherwise issue the fresh pair (which persists
the refresh token on the record), re-fetch the user with password and refreshToken
projected away, and answer 200 with both tokens as httpOnly secure cookies and in
the body. -/
def loginUser (st : State) (r : LoginReq) : State × Except ApiError LoginResp :=
  if !((truthyStr r.username || truthyStr r.email) && truthyStr r.password) then
    (st, Except.error { statusCode := 400, message := "One identification field and password field is required" })
  else
    match st.users.find? (loginMatches r) with
    | none => (st, Except.error { statusCode := 404, message := "User not found" })
    | some foundUser =>
      match r.password with
      | none =>
        (st, Except.error { statusCode := 400, message := "One identification field and password field is required" })
      | some pw =>
        if !(bcryptCompare pw foundUser.password) then
          (st, Except.error { statusCode := 401, message := "Incorrect Password" })
        else
          match generateAccessTokenAndRefreshToken st foundUser.uid with
          | none =>
            (st, Except.error { statusCode := 500, message := "Token generation failed" })
          | some (st1, accessToken, refreshToken) =>
            let newUser := (st1.users.find? (fun u => u.uid = foundUser.uid)).map
              selectNoPasswordNoRefresh
            (st1, Except.ok
              { status := 200,
                cookies := [
                  { cookieName := "accessToken", value := accessToken,
                    httpOnly := true, secure := true },
                  { cookieName := "refreshToken", value := refreshToken,
                    httpOnly := true, secure := true }],
                body := { user := newUser, accessToken := accessToken,
                          refreshToken := refreshToken } })

/-- Success payload of logoutUser: 200 with the two cleared cookie names. -/
structure LogoutResp where
  status : Nat
  clearedCookies : List String
deriving DecidableEq

/-- Translation of the update in logoutUser: User.findByIdAndUpdate with a $set
whose only entry maps refreshToken to the JS value undefined.  Mongoose deletes
update keys whose value is undefined before sending the update (the omitUndefined
behavior, unconditional since Mongoose 6), so the resulting $set is empty and the
stored document - in particular its refreshToken field - is unchanged. -/
def logoutUpdate (st : State) (uid : Nat) : State :=
  st

/-- Translation of logoutUser (user.controller.js lines 203-226): run the
findByIdAndUpdate above, then clear both cookies and answer 200. -/
def logoutUser (st : State) (uid : Nat) : State × Except ApiError LogoutResp :=
  let st1 := logoutUpdate st uid
  (st1, Except.ok { status := 200, clearedCookies := ["refreshToken", "accessToken"] })

/-- Token inputs of refreshAccessToken and fetchUserData: the cookie value or, as a
fallback, the body value. -/
structure RefreshReq where
  cookieToken : Option Tok
  bodyToken : Option Tok
deriving DecidableEq

/-- Body of a successful refresh: the new pair. -/
structure RefreshBody where
  accessToken : Tok
  refreshToken : Tok
deriving DecidableEq

/-- Success payload of refreshAccessToken. -/
structure RefreshResp where
  status : Nat
  cookies : List Cookie
  body : RefreshBody
deriving DecidableEq

/-- Translation of refreshAccessToken (user.controller.js lines 228-277): 401 when
no token came in; inside the try block, verify the signature, look the user up by
the embedded id and compare the incoming token with the stored one - every failure
in the try block (including the inner ApiError throws) is caught and rethrown as
the single 401 "Invalid Refresh Token"; on success issue a fresh pair (persisting
the new refresh token) and answer 200 with the pair as cookies and body. -/
def refreshAccessToken (st : State) (r : RefreshReq) : State × Except ApiError RefreshResp :=
  let incoming := match r.cookieToken with
    | some t => some t
    | none => r.bodyToken
  match incoming with
  | none => (st, Except.error { statusCode := 401, message := "Unauthorized Access" })
  | some t =>
    match jwtVerifyRefresh t with
    | none => (st, Except.error { statusCode := 401, message := "Invalid Refresh Token" })
    | some uid =>
      match st.users.find? (fun u => u.uid = uid) with
      | none => (st, Except.error { statusCode := 401, message := "Invalid Refresh Token" })
      | some user =>
        if some t ≠ user.refreshToken then
          (st, Except.error { statusCode := 401, message := "Invalid Refresh Token" })
        else
          match generateAccessTokenAndRefreshToken st user.uid with
          | none =>
            (st, Except.error { statusCode := 401, message := "Invalid Refresh Token" })
          | some (st1, accessToken, newRefreshToken) =>
            (st1, Except.ok
              { status := 200,
                cookies := [
                  { cookieName := "accessToken", value := accessToken,
                    httpOnly := true, secure := true },
                  { cookieName := "refreshToken", value := newRefreshToken,
                    httpOnly := true, secure := true }],
                body := { accessToken := accessToken, refreshToken := newRefreshToken } })

/-- Success payload of fetchUserData. -/
structure FetchUserResp where
  status : Nat
  user : UserView
deriving DecidableEq

/-- Translation of fetchUserData (user.controller.js lines 279-331): the same token
guard chain as refresh (failures inside the try block are rethrown as the 401
"Error Fetching Data"), then answer the explicit userValues object. -/
def fetchUserData (st : State) (r : RefreshReq) : State × Except ApiError FetchUserResp :=
  let incoming := match r.cookieToken with
    | some t => some t
    | none => r.bodyToken
  match incoming with
  | none => (st, Except.error { statusCode := 401, message := "Unauthorized Access" })
  | some t =>
    match jwtVerifyRefresh t with
    | none => (st, Except.error { statusCode := 401, message := "Error Fetching Data" })
    | some uid =>
      match st.users.find? (fun u => u.uid = uid) with
      | none => (st, Except.error { statusCode := 401, message := "Error Fetching Data" })
      | some user =>
        if some t ≠ user.refreshToken then
          (st, Except.error { statusCode := 401, message := "Error Fetching Data" })
        else
          (st, Except.ok { status := 200, user := userValuesView user })

/-- addProject request: body fields plus multer file paths. -/
structure AddProjectReq where
  name : Option String
  repoId : Option String
  url : Option String
  description : Option String
  domain : Option String
  techStack : Option String
  stars : Option String
  ownersUsernames : Option String
  videoFiles : List String
  imageFiles : List String
  thumbnailFile : Option String
deriving DecidableEq

/-- Success payload of addProject. -/
structure AddProjectResp where
  status : Nat
  project : StoredProject
deriving DecidableEq

/-- The comma-split-and-trim applied to ownersUsernames and techStack. -/
def splitTrim (s : String) : List String :=
  (jsSplitOnComma s).map (fun p => jsTrim p)

/-- The owner-resolution loop of addProject: look each username up, throwing the
404 ApiError that names the username when the lookup finds nothing. -/
def resolveOwners (st : State) : List String → Except ApiError (List StoredUser)
  | [] => Except.ok []
  | un :: rest =>
    match st.users.find? (fun u => u.username = un) with
    | none =>
      Except.error { statusCode := 404,
                     message := "Owner with username " ++ un ++ " not found" }
    | some u =>
      match resolveOwners st rest with
      | Except.error e => Except.error e
      | Except.ok us => Except.ok (u :: us)

/-- Translation of addProject (user.controller.js lines 333-480): 404 when the
request carries no authenticated user; splitting an undefined ownersUsernames or
techStack raises a TypeError that the catch block converts to the 500 ApiError;
the required-field test uses JS truthiness on the five scalar fields (the two
split arrays are always truthy); resolve the owners (404 per missing username,
before any write); upload the files; persist the Project (models/project.model.js
is not under src/, so Project.create is modelled as a plain insert, per the spec:
"persists the Project"); push the new id onto the creating user's projects list
and save. -/
def addProject (st : State) (authUser : Option Nat) (r : AddProjectReq) :
    State × Except ApiError AddProjectResp :=
  match authUser with
  | none => (st, Except.error { statusCode := 404, message := "User not found" })
  | some uid =>
    match r.ownersUsernames, r.techStack with
    | some ownersRaw, some techRaw =>
      let ownerUsernames := splitTrim ownersRaw
      let techStacks := splitTrim techRaw
      if !(truthyStr r.name && truthyStr r.repoId && truthyStr r.url &&
           truthyStr r.description && truthyStr r.domain) then
        (st, Except.error { statusCode := 400, message := "Missing required project data" })
      else
        match resolveOwners st ownerUsernames with
        | Except.error e => (st, Except.error e)
        | Except.ok owners =>
          let videosUrl := r.videoFiles.map uploadFileToCloudinary
          let imagesUrl := r.imageFiles.map uploadFileToCloudinary
          let thumbnailUrl := match r.thumbnailFile with
            | some p => uploadFileToCloudinary p
            | none => ""
          match r.name, r.repoId, r.url, r.description, r.domain with
          | some nm, some rep, some theUrl, some de, some dom =>
            let newProject : StoredProject :=
              { pid := st.nextPid, name := nm, repoId := rep, url := theUrl,
                description := de, domain := dom, techStacks := techStacks,
                stars := r.stars, owners := owners.map (fun o => o.uid),
                videos := videosUrl, images := imagesUrl, thumbnail := thumbnailUrl }
            let users := st.users.map (fun u2 =>
              if u2.uid = uid then { u2 with projects := u2.projects ++ [newProject.pid] }
              else u2)
            ({ st with projectsDb := st.projectsDb ++ [newProject],
                       users := users, nextPid := st.nextPid + 1 },
             Except.ok { status := 200, project := newProject })
          | _, _, _, _, _ =>
            (st, Except.error { statusCode := 400, message := "Missing required project data" })
    | _, _ =>
      (st, Except.error { statusCode := 500, message := "Internal Server Error while adding project" })

/-- Success payload of fetchUserProjects: the resolved (non-null) project
documents.  Projects carry owner ids only, so no user fields appear here. -/
structure FetchProjectsResp where
  status : Nat
  projectObjects : List StoredProject
deriving DecidableEq

/-- Translation of fetchUserProjects (user.controller.js lines 482-534): find the
user by username (the select projection is irrelevant to the answer), 404 when
missing, answer the empty list when the projects list is empty, otherwise resolve
each project id and drop the nulls. -/
def fetchUserProjects (st : State) (username : String) :
    State × Except ApiError FetchProjectsResp :=
  match st.users.find? (fun u => u.username = username) with
  | none =>
    (st, Except.error { statusCode := 404,
                        message := "Owner with username " ++ username ++ " not found" })
  | some user =>
    if user.projects.isEmpty then
      (st, Except.ok { status := 200, projectObjects := [] })
    else
      let projectObjects := user.projects.filterMap
        (fun pid => st.projectsDb.find? (fun p => p.pid = pid))
      (st, Except.ok { status := 200, projectObjects := projectObjects })

/-- A project as serialized by fetchProject: the document fields with the owners
replaced by their projected user documents. -/
structure ProjectView where
  pid : Nat
  name : String
  repoId : String
  url : String
  description : String
  domain : String
  techStacks : List String
  stars : Option String
  owners : List UserView
  videos : List String
  images : List String
  thumbnail : String
deriving DecidableEq

/-- Success payload of fetchProject. -/
structure FetchProjectResp where
  status : Nat
  project : ProjectView
deriving DecidableEq

/-- Translation of fetchProject (user.controller.js lines 536-587): find the user
by username (404 when missing), collect the user's projects, find the one with the
requested name - when none matches, reading .owners off undefined raises a
TypeError that the catch block converts to the 500 ApiError - then resolve each
owner id with the password and refreshToken projected away, dropping nulls, and
answer the project with the resolved owners. -/
def fetchProject (st : State) (username projectName : String) :
    State × Except ApiError FetchProjectResp :=
  match st.users.find? (fun u => u.username = username) with
  | none =>
    (st, Except.error { statusCode := 404,
                        message := "Owner with username " ++ username ++ " not found" })
  | some user =>
    let projects := st.projectsDb.filter (fun p => user.projects.contains p.pid)
    match projects.find? (fun p => p.name = projectName) with
    | none =>
      (st, Except.error { statusCode := 500, message := "Error Fetching User Projects" })
    | some project =>
      let validOwnerObjects := project.owners.filterMap
        (fun oid => (st.users.find? (fun u => u.uid = oid)).map selectNoPasswordNoRefresh)
      (st, Except.ok
        { status := 200,
          project :=
            { pid := project.pid, name := project.name, repoId := project.repoId,
              url := project.url, description := project.description,
              domain := project.domain, techStacks := project.techStacks,
              stars := project.stars, owners := validOwnerObjects,
              videos := project.videos, images := project.images,
              thumbnail := project.thumbnail } })

/-- Success payload of sendEmail. -/
structure SendEmailResp where
  status : Nat
  success : Bool
deriving DecidableEq

/-- Translation of sendEmail (user.controller.js lines 589-641): find the user by
username (404 when missing), 404 when the record has no email (impossible for a
schema-valid record but kept for fidelity), send the mail via SMTP (an external
effect outside the database state) and answer 200. -/
def sendEmail (st : State) (username : String) : State × Except ApiError SendEmailResp :=
  match st.users.find? (fun u => u.username = username) with
  | none =>
    (st, Except.error { statusCode := 404,
                        message := "Owner with username " ++ username ++ " not found" })
  | some user =>
    if user.email = "" then
      (st, Except.error { statusCode := 404,
                          message := "Email for username " ++ username ++ " not found" })
    else
      (st, Except.ok { status := 200, success := true })

/-- One request to any endpoint exported by user.controller.js. -/
inductive Request
  | register (r : RegisterReq)
  | verify (r : VerifyReq)
  | login (r : LoginReq)
  | logout (uid : Nat)
  | refresh (r : RefreshReq)
  | fetchUser (r : RefreshReq)
  | addProj (authUser : Option Nat) (r : AddProjectReq)
  | fetchProjects (username : String)
  | fetchProj (username projectName : String)
  | contact (username : String)
deriving DecidableEq

/-- The database state after handling one request (success or error alike). -/
def stepState (st : State) : Request → State
  | Request.register r => (registerUser st r).1
  | Request.verify r => (verifyOtp st r).1
  | Request.login r => (loginUser st r).1
  | Request.logout uid => (logoutUser st uid).1
  | Request.refresh r => (refreshAccessToken st r).1
  | Request.fetchUser r => (fetchUserData st r).1
  | Request.addProj a r => (addProject st a r).1
  | Request.fetchProjects un => (fetchUserProjects st un).1
  | Request.fetchProj un pn => (fetchProject st un pn).1
  | Request.contact un => (sendEmail st un).1

/-- Invariant: every persisted password is a bcrypt hash, never a plaintext. -/
def usersHashed (st : State) : Prop :=
  ∀ u ∈ st.users, ∃ s, u.password = Pw.hashed s

/-- Well-formed database state: user ids are pairwise distinct, and every stored
refresh token was issued by the token service to its owner with a serial below the
current counter (so the next issued token is always new). -/
def wfState (st : State) : Prop :=
  (st.users.map (fun u => u.uid)).Nodup ∧
  ∀ u ∈ st.users, ∀ t, u.refreshToken = some t →
    ∃ s, t = Tok.refresh u.uid s ∧ s < st.serial

/-- The empty database. -/
def emptyState : State :=
  { users := [], otps := [], projectsDb := [], nextUid := 0, nextOid := 0,
    nextPid := 0, serial := 0 }

/-- Decidable equality for controller results, used to evaluate the theorems on
concrete inputs. -/
def exceptDecEq {e a : Type} [DecidableEq e] [DecidableEq a] :
    DecidableEq (Except e a) := fun x y =>
  match x, y with
  | Except.error e1, Except.error e2 =>
    match decEq e1 e2 with
    | isTrue h => isTrue (by rw [h])
    | isFalse h => isFalse (by intro hc; cases hc; exact h rfl)
  | Except.ok v1, Except.ok v2 =>
    match decEq v1 v2 with
    | isTrue h => isTrue (by rw [h])
    | isFalse h => isFalse (by intro hc; cases hc; exact h rfl)
  | Except.error _, Except.ok _ => isFalse (by intro hc; cases hc)
  | Except.ok _, Except.error _ => isFalse (by intro hc; cases hc)

instance {e a : Type} [DecidableEq e] [DecidableEq a] : DecidableEq (Except e a) :=
  exceptDecEq

/-- Sample persisted user with a hashed password and a stored refresh token,
used to evaluate the theorems on concrete inputs. -/
def aliceUser : StoredUser :=
  { uid := 0, username := "alice", fullname := "Alice A", email := "alice@mail.com",
    githubId := "alice-gh", password := Pw.hashed "pw1", profilePic := "",
    coverImg := "", watchList := [], techStack := [], domains := [], projects := [],
    refreshToken := some (Tok.refresh 0 0) }

/-- Sample persisted user with no stored refresh token. -/
def bobUser : StoredUser :=
  { uid := 1, username := "bob", fullname := "Bob B", email := "bob@mail.com",
    githubId := "bob-gh", password := Pw.hashed "pw2", profilePic := "",
    coverImg := "", watchList := [], techStack := [], domains := [], projects := [],
    refreshToken := none }

/-- Sample database holding aliceUser only. -/
def baseState : State :=
  { users := [aliceUser], otps := [], projectsDb := [], nextUid := 1, nextOid := 1,
    nextPid := 0, serial := 1 }

/-- Sample echoed registration payload for a new user named bob. -/
def samplePayload : UserData :=
  { fullname := some "Bob B", profilePic := some "", coverImg := some "",
    username := some "bob", email := some "bob@mail.com", githubId := some "bob-gh",
    password := some "pw2", position := some "dev", description := some "desc" }

/-- Sample database holding aliceUser plus a pending OTP record for bob. -/
def otpState : State :=
  { users := [aliceUser], otps := [{ oid := 0, email := "bob@mail.com", otp := Pw.hashed "1234" }],
    projectsDb := [], nextUid := 1, nextOid := 1, nextPid := 0, serial := 1 }

/-- Sample database holding aliceUser and bobUser plus a pending OTP record whose
payload collides with bobUser. -/
def dupState : State :=
  { users := [aliceUser, bobUser],
    otps := [{ oid := 0, email := "bob@mail.com", otp := Pw.hashed "1234" }],
    projectsDb := [], nextUid := 2, nextOid := 1, nextPid := 0, serial := 1 }

/-- The User document that userCreate builds from samplePayload on a database
whose next fresh id is 1. -/
def bobCreatedUser : StoredUser :=
  { uid := 1, username := "bob", fullname := "Bob B", email := "bob@mail.com",
    githubId := "bob-gh", password := Pw.hashed "pw2", profilePic := "",
    coverImg := "", watchList := [], techStack := [], domains := [],
    projects := [], refreshToken := none }

/-- Sample registration request that collides with aliceUser on the username. -/
def regConflictReq : RegisterReq :=
  { username := some "alice", fullname := some "Alice A", email := some "other@mail.com",
    password := some "pw9", githubId := some "other-gh", position := some "dev",
    description := some "desc", profilePicFile := none, coverImgFile := none }

/-- Sample registration request whose fullname key is missing entirely. -/
def regMissingFullname : RegisterReq :=
  { username := some "alice", fullname := none, email := some "alice@mail.com",
    password := some "pw1", githubId := some "alice-gh", position := some "dev",
    description := some "desc", profilePicFile := none, coverImgFile := none }

/-- Sample registration request whose fullname is present but blank. -/
def regEmptyFullname : RegisterReq :=
  { username := some "alice", fullname := some "", email := some "alice@mail.com",
    password := some "pw1", githubId := some "alice-gh", position := some "dev",
    description := some "desc", profilePicFile := none, coverImgFile := none }

/-- Sample addProject request listing alice as the only owner. -/
def projReq : AddProjectReq :=
  { name := some "proj", repoId := some "17", url := some "https://x", description := some "a demo",
    domain := some "web", techStack := some "js", stars := some "5",
    ownersUsernames := some "alice", videoFiles := [], imageFiles := [],
    thumbnailFile := none }

/- ------------------------------------------------------------------ -/
/- Helper lemmas                                                      -/
/- ------------------------------------------------------------------ -/

theorem find_uid_of_nodup {l : List StoredUser} {u : StoredUser}
    (hn : (l.map (fun x => x.uid)).Nodup) (hu : u ∈ l) :
    l.find? (fun x => x.uid = u.uid) = some u := by
  induction l with
  | nil => cases hu
  | cons h tl ih =>
    simp only [List.map_cons, List.nodup_cons] at hn
    rcases List.mem_cons.mp hu with rfl | hmem
    · exact List.find?_cons_of_pos tl (by simp)
    · have hne : ¬ (h.uid = u.uid) := by
        intro he
        exact hn.1 (he ▸ List.mem_map_of_mem (fun x => x.uid) hmem)

      rw [List.find?_cons_of_neg tl (by simpa using hne)]
      exact ih hn.2 hmem

theorem generate_eq (st : State) (u : StoredUser)
    (hn : (st.users.map (fun x => x.uid)).Nodup) (hu : u ∈ st.users) :
    generateAccessTokenAndRefreshToken st u.uid =
      some (rotatedState st u.uid, Tok.access u.uid st.serial, Tok.refresh u.uid st.serial) := by
  unfold generateAccessTokenAndRefreshToken
  rw [find_uid_of_nodup hn hu]
  rfl

theorem generate_users (st : State) (uid : Nat) (st1 : State) (a b : Tok)
    (h : generateAccessTokenAndRefreshToken st uid = some (st1, a, b)) :
    st1.users = st.users.map (fun x =>
      if x.uid = uid then { x with refreshToken := some b } else x) := by
  unfold generateAccessTokenAndRefreshToken at h
  cases hf : st.users.find? (fun x => x.uid = uid) with
  | none => rw [hf] at h; cases h
  | some w =>
    rw [hf] at h
    simp only [Option.some.injEq, Prod.mk.injEq] at h
    rcases h with ⟨h1, _, h3⟩
    rw [← h1, ← h3]

theorem uid_map_rotated (st : State) (uid : Nat) :
    (rotatedState st uid).users.map (fun x => x.uid) = st.users.map (fun x => x.uid) := by
  unfold rotatedState
  simp only [List.map_map]
  apply List.map_congr_left
  intro x _
  by_cases hx : x.uid = uid <;> simp [hx]

theorem wf_rotated (st : State) (u : StoredUser)
    (hwf : wfState st) (hu : u ∈ st.users) :
    wfState (rotatedState st u.uid) := by
  obtain ⟨hn, htok⟩ := hwf
  refine ⟨by rw [uid_map_rotated]; exact hn, ?_⟩
  intro x hx t ht
  rcases List.mem_map.mp hx with ⟨y, hy, rfl⟩
  by_cases hyu : y.uid = u.uid
  · rw [if_pos hyu] at ht ⊢
    simp only [Option.some.injEq] at ht
    exact ⟨st.serial, by rw [← ht, hyu], Nat.lt_succ_self _⟩
  · rw [if_neg hyu] at ht ⊢
    rcases htok y hy t ht with ⟨s, hts, hlt⟩
    exact ⟨s, hts, Nat.lt_succ_of_lt hlt⟩

theorem mem_rotated (st : State) (u : StoredUser) (hu : u ∈ st.users) :
    { u with refreshToken := some (Tok.refresh u.uid st.serial) } ∈ (rotatedState st u.uid).users := by
  unfold rotatedState
  have := List.mem_map_of_mem (fun x =>
    if x.uid = u.uid then { x with refreshToken := some (Tok.refresh u.uid st.serial) } else x) hu
  simpa using this

theorem refresh_reject (st : State) (x : StoredUser) (tf : Tok)
    (hn : (st.users.map (fun v => v.uid)).Nodup) (hx : x ∈ st.users)
    (hj : jwtVerifyRefresh tf = some x.uid)
    (hne : some tf ≠ x.refreshToken) :
    refreshAccessToken st { cookieToken := some tf, bodyToken := none } =
      (st, Except.error { statusCode := 401, message := "Invalid Refresh Token" }) := by
  unfold refreshAccessToken
  simp only [hj, find_uid_of_nodup hn hx]
  rw [if_pos hne]

theorem refresh_ok (st : State) (u : StoredUser) (t : Tok)
    (hwf : wfState st) (hu : u ∈ st.users) (ht : u.refreshToken = some t) :
    refreshAccessToken st { cookieToken := some t, bodyToken := none } =
      (rotatedState st u.uid, Except.ok
        { status := 200,
          cookies := [
            { cookieName := "accessToken", value := Tok.access u.uid st.serial,
              httpOnly := true, secure := true },
            { cookieName := "refreshToken", value := Tok.refresh u.uid st.serial,
              httpOnly := true, secure := true }],
          body := { accessToken := Tok.access u.uid st.serial,
                    refreshToken := Tok.refresh u.uid st.serial } }) := by
  obtain ⟨hn, htok⟩ := hwf
  obtain ⟨s, hts, hlt⟩ := htok u hu t ht
  subst hts
  unfold refreshAccessToken
  simp only [jwtVerifyRefresh, find_uid_of_nodup hn hu]
  rw [if_neg (by simp [ht])]
  rw [generate_eq st u hn hu]

theorem registerUser_users (st : State) (r : RegisterReq) :
    ((registerUser st r).1).users = st.users := by
  unfold registerUser sendOtpVerificationEmail
  repeat' split
  all_goals rfl

theorem logoutUser_state (st : State) (uid : Nat) :
    (logoutUser st uid).1 = st := rfl

theorem fetchUserData_state (st : State) (r : RefreshReq) :
    (fetchUserData st r).1 = st := by
  unfold fetchUserData
  repeat' first
    | split
    | dsimp only
  all_goals rfl

theorem fetchUserProjects_state (st : State) (username : String) :
    (fetchUserProjects st username).1 = st := by
  unfold fetchUserProjects
  repeat' first
    | split
    | dsimp only
  all_goals rfl

theorem fetchProject_state (st : State) (username projectName : String) :
    (fetchProject st username projectName).1 = st := by
  unfold fetchProject
  repeat' first
    | split
    | dsimp only
  all_goals rfl

theorem sendEmail_state (st : State) (username : String) :
    (sendEmail st username).1 = st := by
  unfold sendEmail
  repeat' first
    | split
    | dsimp only
  all_goals rfl

theorem loginUser_users_shape (st : State) (r : LoginReq) :
    ((loginUser st r).1).users = st.users ∨
    ∃ uid b, ((loginUser st r).1).users =
      st.users.map (fun x => if x.uid = uid then { x with refreshToken := some b } else x) := by
  unfold loginUser
  repeat' first
    | split
    | dsimp only
  any_goals (left; rfl)
  all_goals
    rename_i st1 a b heq
    exact Or.inr ⟨_, b, generate_users st _ st1 a b heq⟩

theorem refreshAccessToken_users_shape (st : State) (r : RefreshReq) :
    ((refreshAccessToken st r).1).users = st.users ∨
    ∃ uid b, ((refreshAccessToken st r).1).users =
      st.users.map (fun x => if x.uid = uid then { x with refreshToken := some b } else x) := by
  unfold refreshAccessToken
  repeat' first
    | split
    | dsimp only
  any_goals (left; rfl)
  all_goals
    rename_i st1 a b heq
    exact Or.inr ⟨_, b, generate_users st _ st1 a b heq⟩

theorem addProject_users_shape (st : State) (a : Option Nat) (r : AddProjectReq) :
    ((addProject st a r).1).users = st.users ∨
    ∃ uid pid, ((addProject st a r).1).users =
      st.users.map (fun x => if x.uid = uid then { x with projects := x.projects ++ [pid] } else x) := by
  unfold addProject
  repeat' first
    | split
    | dsimp only
  any_goals (left; rfl)
  all_goals exact Or.inr ⟨_, _, rfl⟩

theorem userCreate_ok_shape (st : State) (d : UserData) (st2 : State) (nu : StoredUser)
    (hc : userCreate st d = Except.ok (st2, nu)) :
    st2.users = st.users ++ [nu] ∧ st2.otps = st.otps ∧
    ∃ pw, d.password = some pw ∧ nu.password = Pw.hashed pw := by
  unfold userCreate at hc
  split at hc
  case h_2 => cases hc
  case h_1 =>
    rename_i sUn sFn sEm sGh sPw hUn hFn hEm hGh hPw
    split at hc
    · cases hc
    · dsimp only at hc
      split at hc
      · cases hc
      · simp only [Except.ok.injEq, Prod.mk.injEq] at hc
        obtain ⟨rfl, rfl⟩ := hc
        exact ⟨rfl, rfl, sPw, hPw, rfl⟩

theorem verifyOtp_shape (st : State) (r : VerifyReq) :
    (((verifyOtp st r).1).users = st.users ∧ ∃ e, (verifyOtp st r).2 = Except.error e) ∨
    (∃ nu, ((verifyOtp st r).1).users = st.users ++ [nu] ∧
           (∃ s, nu.password = Pw.hashed s) ∧
           (verifyOtp st r).2 = Except.ok { status := 200, user := fullDocView nu }) := by
  unfold verifyOtp
  repeat' first
    | split
    | dsimp only
  any_goals exact Or.inl ⟨rfl, _, rfl⟩
  all_goals
    rename_i st2 nu heq
    obtain ⟨h1, _, pw, _, hpw⟩ := userCreate_ok_shape _ _ _ _ heq
    exact Or.inr ⟨nu, h1, ⟨pw, hpw⟩, rfl⟩

theorem listHashed_map_pw (l : List StoredUser) (f : StoredUser → StoredUser)
    (hf : ∀ u, (f u).password = u.password)
    (h : ∀ u ∈ l, ∃ s, u.password = Pw.hashed s) :
    ∀ u' ∈ l.map f, ∃ s, u'.password = Pw.hashed s := by
  intro u' hu'
  rcases List.mem_map.mp hu' with ⟨u, hu, rfl⟩
  rcases h u hu with ⟨s, hs⟩
  exact ⟨s, (hf u).trans hs⟩

theorem rt_update_pw (uid : Nat) (b : Tok) (u : StoredUser) :
    (if u.uid = uid then { u with refreshToken := some b } else u).password = u.password := by
  split <;> rfl

theorem proj_update_pw (uid pid : Nat) (u : StoredUser) :
    (if u.uid = uid then { u with projects := u.projects ++ [pid] } else u).password = u.password := by
  split <;> rfl

theorem stepState_users_length (st : State) (q : Request)
    (hq : ∀ vr, q ≠ Request.verify vr) :
    ((stepState st q).users).length = st.users.length := by
  cases q with
  | register r => simp only [stepState, registerUser_users]
  | verify r => exact absurd rfl (hq r)
  | login r =>
    rcases loginUser_users_shape st r with hs | ⟨uid, b, hs⟩ <;>
      simp only [stepState, hs, List.length_map]
  | logout uid => rfl
  | refresh r =>
    rcases refreshAccessToken_users_shape st r with hs | ⟨uid, b, hs⟩ <;>
      simp only [stepState, hs, List.length_map]
  | fetchUser r => simp only [stepState, fetchUserData_state]
  | addProj a r =>
    rcases addProject_users_shape st a r with hs | ⟨uid, pid, hs⟩ <;>
      simp only [stepState, hs, List.length_map]
  | fetchProjects un => simp only [stepState, fetchUserProjects_state]
  | fetchProj un pn => simp only [stepState, fetchProject_state]
  | contact un => simp only [stepState, sendEmail_state]

theorem baseState_wf : wfState baseState := by
  constructor
  · decide
  · intro u hu t ht
    rcases List.mem_singleton.mp hu with rfl
    injection ht with h
    subst h
    exact ⟨0, rfl, by decide⟩

theorem verifyOtp_reduced (st : State) (r : VerifyReq)
    (otp : String) (d : UserData) (em : String)
    (hotp : r.otp = some otp) (hotpne : otp ≠ "")
    (hd : r.userData = some d) (hem : d.email = some em) (hemne : em ≠ "") :
    verifyOtp st r =
      (match st.otps.find? (fun o => o.email = em) with
       | none => (st, Except.error { statusCode := 404, message := "User not found in database" })
       | some otpVer =>
         if !(bcryptCompare otp otpVer.otp) then
           (st, Except.error { statusCode := 400, message := "Wrong OTP" })
         else
           match userCreate { st with otps := st.otps.filter (fun o => o.oid ≠ otpVer.oid) } d with
           | Except.error _ =>
             ({ st with otps := st.otps.filter (fun o => o.oid ≠ otpVer.oid) },
              Except.error { statusCode := 500, message := "Verification failed. Please try again." })
           | Except.ok (st2, newUser) =>
             (st2, Except.ok { status := 200, user := fullDocView newUser })) := by
  unfold verifyOtp
  rw [hotp, hd]
  dsimp only
  rw [hem]
  simp [truthyStr, hotpne, hemne]

theorem find?_of_filter_singleton {α : Type} {l : List α} {p : α → Bool} {x : α}
    (h : l.filter p = [x]) : l.find? p = some x := by
  induction l with
  | nil => simp at h
  | cons a tl ih =>
    by_cases hp : p a
    · rw [List.filter_cons_of_pos hp] at h
      simp only [List.cons.injEq] at h
      rw [List.find?_cons_of_pos tl hp, h.1]
    · rw [List.filter_cons_of_neg hp] at h
      rw [List.find?_cons_of_neg tl hp]
      exact ih h

theorem loginUser_ok_user (st : State) (r : LoginReq) (st1 : State) (resp : LoginResp)
    (heq : loginUser st r = (st1, Except.ok resp)) :
    ∀ v, resp.body.user = some v → ∃ u, v = selectNoPasswordNoRefresh u := by
  unfold loginUser at heq
  repeat' first
    | (split at heq)
    | (dsimp only at heq)
  all_goals cases heq
  intro v hv
  rcases Option.map_eq_some'.mp hv with ⟨u, hu, hfa⟩
  exact ⟨u, hfa.symm⟩

theorem fetchUserData_ok_user (st : State) (r : RefreshReq) (st1 : State) (resp : FetchUserResp)
    (heq : fetchUserData st r = (st1, Except.ok resp)) :
    ∃ u, resp.user = userValuesView u := by
  unfold fetchUserData at heq
  repeat' first
    | (split at heq)
    | (dsimp only at heq)
  all_goals cases heq
  all_goals exact ⟨_, rfl⟩

theorem fetchProject_ok_owners (st : State) (un pn : String) (st1 : State)
    (resp : FetchProjectResp)
    (heq : fetchProject st un pn = (st1, Except.ok resp)) :
    ∀ v ∈ resp.project.owners, ∃ u, v = selectNoPasswordNoRefresh u := by
  unfold fetchProject at heq
  repeat' first
    | (split at heq)
    | (dsimp only at heq)
  all_goals cases heq
  intro v hv
  rcases List.mem_filterMap.mp hv with ⟨oid, _, hf⟩
  rcases Option.map_eq_some'.mp hf with ⟨u, _, hfa⟩
  exact ⟨u, hfa.symm⟩

/- ------------------------------------------------------------------ -/
/- Claim theorems                                                     -/
/- ------------------------------------------------------------------ -/

/-- C9: the stored password field of a persisted User never contains the plaintext
password.  Every write that sets the password goes through userCreate, whose
pre-save hook stores exactly the bcrypt hash of the submitted plaintext; and the
invariant that every persisted password is a bcrypt hash is preserved by every
request the controller module handles. -/
theorem media_c9_password_never_plaintext :
    (∀ st d st2 nu, userCreate st d = Except.ok (st2, nu) →
      ∃ pw, d.password = some pw ∧ nu.password = Pw.hashed pw) ∧
    (∀ st q, usersHashed st → usersHashed (stepState st q)) := by
  constructor
  · intro st d st2 nu hc
    obtain ⟨_, _, pw, h1, h2⟩ := userCreate_ok_shape st d st2 nu hc
    exact ⟨pw, h1, h2⟩
  · intro st q h
    cases q with
    | register r =>
      intro u hu
      simp only [stepState, registerUser_users] at hu
      exact h u hu
    | verify r =>
      rcases verifyOtp_shape st r with ⟨he, _⟩ | ⟨nu, hnu, hpw, _⟩
      · intro u hu
        simp only [stepState, he] at hu
        exact h u hu
      · intro u hu
        simp only [stepState, hnu] at hu
        rcases List.mem_append.mp hu with h1 | h1
        · exact h u h1
        · rw [List.mem_singleton.mp h1]
          exact hpw
    | login r =>
      rcases loginUser_users_shape st r with hs | ⟨uid, b, hs⟩
      · intro u hu
        simp only [stepState, hs] at hu
        exact h u hu
      · intro u hu
        simp only [stepState, hs] at hu
        exact listHashed_map_pw _ _ (rt_update_pw uid b) h u hu
    | logout uid => exact h
    | refresh r =>
      rcases refreshAccessToken_users_shape st r with hs | ⟨uid, b, hs⟩
      · intro u hu
        simp only [stepState, hs] at hu
        exact h u hu
      · intro u hu
        simp only [stepState, hs] at hu
        exact listHashed_map_pw _ _ (rt_update_pw uid b) h u hu
    | fetchUser r =>
      intro u hu
      simp only [stepState, fetchUserData_state] at hu
      exact h u hu
    | addProj a r =>
      rcases addProject_users_shape st a r with hs | ⟨uid, pid, hs⟩
      · intro u hu
        simp only [stepState, hs] at hu
        exact h u hu
      · intro u hu
        simp only [stepState, hs] at hu
        exact listHashed_map_pw _ _ (proj_update_pw uid pid) h u hu
    | fetchProjects un =>
      intro u hu
      simp only [stepState, fetchUserProjects_state] at hu
      exact h u hu
    | fetchProj un pn =>
      intro u hu
      simp only [stepState, fetchProject_state] at hu
      exact h u hu
    | contact un =>
      intro u hu
      simp only [stepState, sendEmail_state] at hu
      exact h u hu

/-- Witness for C9: the invariant transported through a concrete login request on
a concrete state whose only user has a hashed password. -/
theorem media_c9_password_never_plaintext_witness :
    usersHashed (stepState baseState
      (Request.login { email := some "alice@mail.com", username := none, password := some "pw1" })) :=
  media_c9_password_never_plaintext.2 baseState
    (Request.login { email := some "alice@mail.com", username := none, password := some "pw1" })
    (fun u hu => ⟨"pw1", by rcases List.mem_singleton.mp hu with rfl; rfl⟩)

/-- C2: OTP verification fails with the 404 NotFound error when no pending OTP
record exists for the submitted email; fails with the wrong-code error (ApiError
400 "Wrong OTP", the InvalidCredential case) while leaving the whole state - in
particular the OTP record - in place when the code does not match the stored
hash; otherwise deletes the OTP record and creates the permanent User record from
the echoed payload; and no request other than this successful verification ever
changes the number of User records. -/
theorem media_c2_verify_creation_gate (st : State) (r : VerifyReq)
    (otp : String) (d : UserData) (em : String)
    (hotp : r.otp = some otp) (hotpne : otp ≠ "")
    (hd : r.userData = some d) (hem : d.email = some em) (hemne : em ≠ "") :
    (st.otps.find? (fun o => o.email = em) = none →
      verifyOtp st r = (st, Except.error { statusCode := 404, message := "User not found in database" })) ∧
    (∀ rec, st.otps.find? (fun o => o.email = em) = some rec →
      bcryptCompare otp rec.otp = false →
      verifyOtp st r = (st, Except.error { statusCode := 400, message := "Wrong OTP" })) ∧
    (∀ rec, st.otps.find? (fun o => o.email = em) = some rec →
      bcryptCompare otp rec.otp = true →
      ((verifyOtp st r).1).otps = st.otps.filter (fun o => o.oid ≠ rec.oid) ∧
      (∀ st2 resp, verifyOtp st r = (st2, Except.ok resp) →
        ∃ nu, userCreate { st with otps := st.otps.filter (fun o => o.oid ≠ rec.oid) } d
                = Except.ok (st2, nu) ∧
              nu ∈ st2.users ∧ resp = { status := 200, user := fullDocView nu })) ∧
    (∀ q : Request, (∀ vr, q ≠ Request.verify vr) →
      ((stepState st q).users).length = st.users.length) ∧
    (∀ e, (verifyOtp st r).2 = Except.error e →
      ((verifyOtp st r).1).users.length = st.users.length) := by
  have hred := verifyOtp_reduced st r otp d em hotp hotpne hd hem hemne
  refine ⟨?_, ?_, ?_, ?_, ?_⟩
  · intro hnone
    rw [hred, hnone]
  · intro rec hrec hcmp
    rw [hred, hrec]
    simp [hcmp]
  · intro rec hrec hcmp
    rw [hred, hrec]
    simp only [hcmp, Bool.not_true]
    constructor
    · cases hc : userCreate { st with otps := st.otps.filter (fun o => o.oid ≠ rec.oid) } d with
      | error e => simp
      | ok p =>
        rcases p with ⟨st2, nu⟩
        simp only [hc]
        exact (userCreate_ok_shape _ _ _ _ hc).2.1
    · intro st2 resp heq
      cases hc : userCreate { st with otps := st.otps.filter (fun o => o.oid ≠ rec.oid) } d with
      | error e =>
        rw [hc] at heq
        simp at heq
      | ok p =>
        rcases p with ⟨st2x, nu⟩
        rw [hc] at heq
        simp only [Prod.mk.injEq, Except.ok.injEq] at heq
        obtain ⟨rfl, rfl⟩ := heq
        refine ⟨nu, rfl, ?_, rfl⟩
        rw [(userCreate_ok_shape _ _ _ _ hc).1]
        exact List.mem_append_right _ (List.mem_singleton.mpr rfl)
  · intro q hq
    exact stepState_users_length st q hq
  · intro e he
    rcases verifyOtp_shape st r with ⟨husers, _⟩ | ⟨nu, _, _, hok⟩
    · rw [husers]
    · rw [hok] at he
      cases he

/-- Witness for C2: on a concrete state with no pending OTP record for the
submitted email, verification answers the 404 NotFound error. -/
theorem media_c2_verify_creation_gate_witness :
    verifyOtp baseState { otp := some "1234", userData := some samplePayload } =
      (baseState, Except.error { statusCode := 404, message := "User not found in database" }) :=
  (media_c2_verify_creation_gate baseState
      { otp := some "1234", userData := some samplePayload }
      "1234" samplePayload "bob@mail.com" rfl (by decide) rfl rfl (by decide)).1 (by decide)

/-- C10: in verifyOtp the OTP record is deleted before the User record is created;
when the creation step fails (for example because a conflicting user was created in
the meantime) the request errors with the 500 ApiError but the OTP record has
already been consumed - the OTP store is not left unchanged on error - and retrying
the same code afterwards fails with the 404 NotFound error. -/
theorem media_c10_otp_consumed_on_create_failure (st : State) (r : VerifyReq)
    (otp : String) (d : UserData) (em : String) (rec : OtpRec) (ce : CreateErr)
    (hotp : r.otp = some otp) (hotpne : otp ≠ "")
    (hd : r.userData = some d) (hem : d.email = some em) (hemne : em ≠ "")
    (hone : st.otps.filter (fun o => o.email = em) = [rec])
    (hcmp : bcryptCompare otp rec.otp = true)
    (hfail : userCreate { st with otps := st.otps.filter (fun o => o.oid ≠ rec.oid) } d
        = Except.error ce) :
    verifyOtp st r =
      ({ st with otps := st.otps.filter (fun o => o.oid ≠ rec.oid) },
       Except.error { statusCode := 500, message := "Verification failed. Please try again." }) ∧
    ((verifyOtp st r).1).otps.find? (fun o => o.email = em) = none ∧
    verifyOtp ((verifyOtp st r).1) r =
      ((verifyOtp st r).1,
       Except.error { statusCode := 404, message := "User not found in database" }) := by
  have hrec : st.otps.find? (fun o => o.email = em) = some rec :=
    find?_of_filter_singleton hone
  have hafter : (st.otps.filter (fun o => o.oid ≠ rec.oid)).find?
      (fun o => o.email = em) = none := by
    apply List.find?_eq_none.mpr
    intro o ho hpo
    rcases List.mem_filter.mp ho with ⟨ho1, ho2⟩
    have hmem : o ∈ st.otps.filter (fun o => o.email = em) :=
      List.mem_filter.mpr ⟨ho1, hpo⟩
    rw [hone] at hmem
    rcases List.mem_singleton.mp hmem with rfl
    simp at ho2
  have h1 : verifyOtp st r =
      ({ st with otps := st.otps.filter (fun o => o.oid ≠ rec.oid) },
       Except.error { statusCode := 500, message := "Verification failed. Please try again." }) := by
    rw [verifyOtp_reduced st r otp d em hotp hotpne hd hem hemne, hrec]
    dsimp only
    rw [if_neg (by simp [hcmp]), hfail]
  refine ⟨h1, ?_, ?_⟩
  · rw [h1]
    exact hafter
  · rw [h1]
    rw [verifyOtp_reduced _ r otp d em hotp hotpne hd hem hemne]
    have : ({ st with otps := st.otps.filter (fun o => o.oid ≠ rec.oid) } : State).otps.find?
        (fun o => o.email = em) = none := hafter
    rw [this]

/-- Witness for C10: on a concrete state where the pending OTP for bob matches but
a user named bob already exists, verification consumes the OTP and fails. -/
theorem media_c10_otp_consumed_on_create_failure_witness :
    verifyOtp dupState { otp := some "1234", userData := some samplePayload } =
      ({ dupState with otps := [] },
       Except.error { statusCode := 500, message := "Verification failed. Please try again." }) := by
  have h := (media_c10_otp_consumed_on_create_failure dupState
      { otp := some "1234", userData := some samplePayload }
      "1234" samplePayload "bob@mail.com"
      { oid := 0, email := "bob@mail.com", otp := Pw.hashed "1234" }
      CreateErr.duplicateKey rfl (by decide) rfl rfl (by decide)
      (by decide) (by decide) (by decide)).1
  simpa using h

/-- C1: for refresh-token requests, an absent token, a token failing signature or
expiry verification, a token whose embedded id matches no user, and a token
different from the one stored on the user record are all rejected with a 401
error; refreshing with the stored token succeeds, rotates the stored value so
that the previous token is rejected afterwards, and the newly issued token is
accepted exactly once more (a further reuse is rejected). -/
theorem media_c1_refresh_rotation (st : State) (u : StoredUser) (t : Tok)
    (hwf : wfState st) (hu : u ∈ st.users) (ht : u.refreshToken = some t) :
    ((refreshAccessToken st { cookieToken := none, bodyToken := none }).2 =
      Except.error { statusCode := 401, message := "Unauthorized Access" }) ∧
    (∀ tf, jwtVerifyRefresh tf = none →
      (refreshAccessToken st { cookieToken := some tf, bodyToken := none }).2 =
        Except.error { statusCode := 401, message := "Invalid Refresh Token" }) ∧
    (∀ tf uidf, jwtVerifyRefresh tf = some uidf →
      st.users.find? (fun x => x.uid = uidf) = none →
      (refreshAccessToken st { cookieToken := some tf, bodyToken := none }).2 =
        Except.error { statusCode := 401, message := "Invalid Refresh Token" }) ∧
    (∀ tf x, x ∈ st.users → jwtVerifyRefresh tf = some x.uid →
      some tf ≠ x.refreshToken →
      (refreshAccessToken st { cookieToken := some tf, bodyToken := none }).2 =
        Except.error { statusCode := 401, message := "Invalid Refresh Token" }) ∧
    (∃ st1 r1,
      refreshAccessToken st { cookieToken := some t, bodyToken := none } =
        (st1, Except.ok r1) ∧
      r1.body.refreshToken ≠ t ∧
      (∃ u1 ∈ st1.users, u1.uid = u.uid ∧ u1.refreshToken = some r1.body.refreshToken) ∧
      (refreshAccessToken st1 { cookieToken := some t, bodyToken := none }).2 =
        Except.error { statusCode := 401, message := "Invalid Refresh Token" } ∧
      (∃ st2 r2,
        refreshAccessToken st1 { cookieToken := some r1.body.refreshToken, bodyToken := none } =
          (st2, Except.ok r2) ∧
        (refreshAccessToken st2 { cookieToken := some r1.body.refreshToken, bodyToken := none }).2 =
          Except.error { statusCode := 401, message := "Invalid Refresh Token" })) := by
  refine ⟨rfl, ?_, ?_, ?_, ?_⟩
  · intro tf hj
    unfold refreshAccessToken
    dsimp only
    rw [hj]
  · intro tf uidf hj hfind
    unfold refreshAccessToken
    dsimp only
    rw [hj]
    dsimp only
    rw [hfind]
  · intro tf x hx hj hne
    rw [refresh_reject st x tf hwf.1 hx hj hne]
  · obtain ⟨s, hts, hlt⟩ := hwf.2 u hu t ht
    have h1 := refresh_ok st u t hwf hu ht
    have wf1 := wf_rotated st u hwf hu
    have hmem1 := mem_rotated st u hu
    refine ⟨rotatedState st u.uid, _, h1, ?_, ⟨_, hmem1, rfl, rfl⟩, ?_, ?_⟩
    · subst hts
      intro he
      injection he with h1x h2x
      omega
    · subst hts
      have hrej := refresh_reject (rotatedState st u.uid)
        { u with refreshToken := some (Tok.refresh u.uid st.serial) }
        (Tok.refresh u.uid s) wf1.1 hmem1 rfl
        (by
          intro he
          injection he with hx
          injection hx with h1x h2x
          omega)
      rw [hrej]
    · have h2 := refresh_ok (rotatedState st u.uid)
        { u with refreshToken := some (Tok.refresh u.uid st.serial) }
        (Tok.refresh u.uid st.serial) wf1 hmem1 rfl
      refine ⟨_, _, h2, ?_⟩
      have wf2 := wf_rotated (rotatedState st u.uid)
        { u with refreshToken := some (Tok.refresh u.uid st.serial) } wf1 hmem1
      have hmem2 := mem_rotated (rotatedState st u.uid)
        { u with refreshToken := some (Tok.refresh u.uid st.serial) } hmem1
      have hrej := refresh_reject
        (rotatedState (rotatedState st u.uid)
          ({ u with refreshToken := some (Tok.refresh u.uid st.serial) } : StoredUser).uid)
        _ (Tok.refresh u.uid st.serial) wf2.1 hmem2 rfl
        (by
          intro he
          injection he with hx
          injection hx with h1x h2x
          have hss : st.serial = st.serial + 1 := by
            simpa [rotatedState] using h2x
          omega)
      rw [hrej]

/-- Witness for C1: evaluating the absent-token rejection on a concrete state
holding one user with a stored refresh token. -/
theorem media_c1_refresh_rotation_witness :
    (refreshAccessToken baseState { cookieToken := none, bodyToken := none }).2 =
      Except.error { statusCode := 401, message := "Unauthorized Access" } :=
  (media_c1_refresh_rotation baseState aliceUser (Tok.refresh 0 0) baseState_wf
      (List.mem_singleton.mpr rfl) rfl).1

/-- C3 (observed behavior, contradicting the specified clearing): logout answers
200 and clears both cookies, but the update passes refreshToken as the JS value
undefined inside $set, a key Mongoose strips from updates, so on a concrete state
the stored refresh token remains on the User record and the old refresh token is
still accepted by the refresh endpoint after logout. -/
theorem media_c3_logout_keeps_stored_token :
    (logoutUser baseState 0).2 =
      Except.ok { status := 200, clearedCookies := ["refreshToken", "accessToken"] } ∧
    ((logoutUser baseState 0).1.users.find? (fun u => u.uid = 0)).map
        (fun u => u.refreshToken) = some (some (Tok.refresh 0 0)) ∧
    (refreshAccessToken (logoutUser baseState 0).1
        { cookieToken := some (Tok.refresh 0 0), bodyToken := none }).2 =
      Except.ok
        { status := 200,
          cookies := [
            { cookieName := "accessToken", value := Tok.access 0 1,
              httpOnly := true, secure := true },
            { cookieName := "refreshToken", value := Tok.refresh 0 1,
              httpOnly := true, secure := true }],
          body := { accessToken := Tok.access 0 1, refreshToken := Tok.refresh 0 1 } } := by
  refine ⟨rfl, ?_, ?_⟩ <;> decide

/-- C4 counterexample: the verify-otp success response carries the full created
User document, so on a concrete input its user object contains the password field
(holding the bcrypt hash) - the claim that the password field is absent from every
response carrying user data is false for the verify-otp response. -/
theorem media_c4_counterexample :
    (verifyOtp otpState { otp := some "1234", userData := some samplePayload }).2 =
      Except.ok { status := 200, user := fullDocView bobCreatedUser } ∧
    (fullDocView bobCreatedUser).password ≠ none := by
  refine ⟨?_, ?_⟩ <;> decide

/-- C4 amended: password and refreshToken are absent from the login response user
object, from the user-data fetch response and from every resolved owner in the
single-project fetch response; the verify-otp response however carries the full
created User document, whose password field holds the bcrypt hash - so the
plaintext password is still never retrievable from any read endpoint. -/
theorem media_c4_sensitive_fields_projected (st : State) :
    (∀ r st1 resp, loginUser st r = (st1, Except.ok resp) →
      ∀ v, resp.body.user = some v → v.password = none ∧ v.refreshToken = none) ∧
    (∀ r st1 resp, fetchUserData st r = (st1, Except.ok resp) →
      resp.user.password = none ∧ resp.user.refreshToken = none) ∧
    (∀ un pn st1 resp, fetchProject st un pn = (st1, Except.ok resp) →
      ∀ v ∈ resp.project.owners, v.password = none ∧ v.refreshToken = none) ∧
    (∀ r st1 resp, verifyOtp st r = (st1, Except.ok resp) →
      ∃ s, resp.user.password = some (Pw.hashed s)) := by
  refine ⟨?_, ?_, ?_, ?_⟩
  · intro r st1 resp heq v hv
    rcases loginUser_ok_user st r st1 resp heq v hv with ⟨u, rfl⟩
    exact ⟨rfl, rfl⟩
  · intro r st1 resp heq
    rcases fetchUserData_ok_user st r st1 resp heq with ⟨u, hq⟩
    rw [hq]
    exact ⟨rfl, rfl⟩
  · intro un pn st1 resp heq v hv
    rcases fetchProject_ok_owners st un pn st1 resp heq v hv with ⟨u, rfl⟩
    exact ⟨rfl, rfl⟩
  · intro r st1 resp heq
    rcases verifyOtp_shape st r with ⟨_, e, he⟩ | ⟨nu, _, ⟨s, hpw⟩, hok⟩
    · rw [congrArg Prod.snd heq] at he
      cases he
    · rw [congrArg Prod.snd heq] at hok
      injection hok with hok2
      rw [hok2]
      exact ⟨s, by simp [fullDocView, hpw]⟩

/-- Witness for C4 amended: evaluating the login conjunct on a concrete login. -/
theorem media_c4_sensitive_fields_projected_witness :
    (selectNoPasswordNoRefresh aliceUser).password = none ∧
    (selectNoPasswordNoRefresh aliceUser).refreshToken = none :=
  (media_c4_sensitive_fields_projected baseState).1
    { email := some "alice@mail.com", username := none, password := some "pw1" }
    (rotatedState baseState 0)
    { status := 200,
      cookies := [
        { cookieName := "accessToken", value := Tok.access 0 1,
          httpOnly := true, secure := true },
        { cookieName := "refreshToken", value := Tok.refresh 0 1,
          httpOnly := true, secure := true }],
      body := { user := some (selectNoPasswordNoRefresh aliceUser),
                accessToken := Tok.access 0 1, refreshToken := Tok.refresh 0 1 } }
    (by decide) (selectNoPasswordNoRefresh aliceUser) rfl

/-- C5: login with one identifier plus password fails with the 404 NotFound error
when no user matches, fails with the 401 Incorrect Password error (the
InvalidCredential case) when bcrypt rejects the password, and on success issues a
fresh access/refresh pair, persists the new refresh token on the User record
overwriting any prior value, and returns both tokens as httpOnly secure cookies
and in the response body. -/
theorem media_c5_login (st : State) (r : LoginReq)
    (hid : (truthyStr r.username || truthyStr r.email) = true)
    (hpw : truthyStr r.password = true) :
    (st.users.find? (loginMatches r) = none →
      loginUser st r = (st, Except.error { statusCode := 404, message := "User not found" })) ∧
    (∀ u pw, st.users.find? (loginMatches r) = some u → r.password = some pw →
      bcryptCompare pw u.password = false →
      loginUser st r = (st, Except.error { statusCode := 401, message := "Incorrect Password" })) ∧
    (∀ u pw, wfState st → st.users.find? (loginMatches r) = some u → r.password = some pw →
      bcryptCompare pw u.password = true →
      ∃ st1 resp, loginUser st r = (st1, Except.ok resp) ∧
        resp.status = 200 ∧
        resp.cookies = [
          { cookieName := "accessToken", value := resp.body.accessToken,
            httpOnly := true, secure := true },
          { cookieName := "refreshToken", value := resp.body.refreshToken,
            httpOnly := true, secure := true }] ∧
        (∃ u1 ∈ st1.users, u1.uid = u.uid ∧ u1.refreshToken = some resp.body.refreshToken)) := by
  refine ⟨?_, ?_, ?_⟩
  · intro hnone
    unfold loginUser
    rw [if_neg (by simp [hid, hpw])]
    dsimp only
    rw [hnone]
  · intro u pw hfind hpwsome hcmp
    unfold loginUser
    rw [if_neg (by simp [hid, hpw])]
    dsimp only
    rw [hfind]
    dsimp only
    rw [hpwsome]
    dsimp only
    rw [if_pos (by simp [hcmp])]
  · intro u pw hwf hfind hpwsome hcmp
    have hu := List.mem_of_find?_eq_some hfind
    have hgen := generate_eq st u hwf.1 hu
    unfold loginUser
    rw [if_neg (by simp [hid, hpw])]
    dsimp only
    rw [hfind]
    dsimp only
    rw [hpwsome]
    dsimp only
    rw [if_neg (by simp [hcmp])]
    rw [hgen]
    dsimp only
    exact ⟨rotatedState st u.uid, _, rfl, rfl, rfl,
      ⟨{ u with refreshToken := some (Tok.refresh u.uid st.serial) },
        mem_rotated st u hu, rfl, rfl⟩⟩

/-- Witness for C5: a successful concrete login for alice on a concrete state,
exercising the success conjunct. -/
theorem media_c5_login_witness :
    ∃ st1 resp,
      loginUser baseState
        { email := some "alice@mail.com", username := none, password := some "pw1" } =
        (st1, Except.ok resp) ∧
      resp.status = 200 ∧
      resp.cookies = [
        { cookieName := "accessToken", value := resp.body.accessToken,
          httpOnly := true, secure := true },
        { cookieName := "refreshToken", value := resp.body.refreshToken,
          httpOnly := true, secure := true }] ∧
      (∃ u1 ∈ st1.users, u1.uid = aliceUser.uid ∧
        u1.refreshToken = some resp.body.refreshToken) :=
  (media_c5_login baseState
      { email := some "alice@mail.com", username := none, password := some "pw1" }
      (by decide) (by decide)).2.2 aliceUser "pw1" baseState_wf (by decide) rfl (by decide)

theorem truthy_some {o : Option String} (h : truthyStr o = true) : ∃ s, o = some s := by
  cases o with
  | none => simp [truthyStr] at h
  | some s => exact ⟨s, rfl⟩

theorem resolveOwners_error_of_missing (st : State) (l : List String)
    (h : ∃ un ∈ l, st.users.find? (fun u => u.username = un) = none) :
    ∃ un, un ∈ l ∧ st.users.find? (fun u => u.username = un) = none ∧
      resolveOwners st l = Except.error
        { statusCode := 404, message := "Owner with username " ++ un ++ " not found" } := by
  induction l with
  | nil =>
    rcases h with ⟨un, h1, _⟩
    cases h1
  | cons a tl ih =>
    cases hf : st.users.find? (fun u => u.username = a) with
    | none =>
      refine ⟨a, List.mem_cons_self a tl, hf, ?_⟩
      unfold resolveOwners
      rw [hf]
    | some w =>
      rcases h with ⟨un, hmem, hnone⟩
      rcases List.mem_cons.mp hmem with rfl | hmem2
      · rw [hf] at hnone
        cases hnone
      · rcases ih ⟨un, hmem2, hnone⟩ with ⟨un2, hm2, hn2, herr⟩
        refine ⟨un2, List.mem_cons_of_mem a hm2, hn2, ?_⟩
        unfold resolveOwners
        rw [hf, herr]

/-- C6: a registration request that passes the field and shape checks but whose
username, email or githubId already belongs to an existing user fails with the
409 conflict error, and the state - user store, OTP store and all - is unchanged:
no record is created and no pending payload is persisted. -/
theorem media_c6_register_conflict (st : State) (r : RegisterReq) (u : StoredUser)
    (hempty : (isEmptyTrim r.username || isEmptyTrim r.fullname || isEmptyTrim r.email ||
      isEmptyTrim r.password || isEmptyTrim r.githubId || isEmptyTrim r.position ||
      isEmptyTrim r.description) = false)
    (hemail : isValidEmail r.email = true)
    (hgit : isValidGitHubId r.githubId = true)
    (hu : u ∈ st.users)
    (hmatch : registerMatches r u = true) :
    registerUser st r =
      (st, Except.error { statusCode := 409, message := "Username/email/github already exists" }) := by
  unfold registerUser
  rw [if_neg (by simp [hempty])]
  rw [if_neg (by simp [hemail])]
  rw [if_neg (by simp [hgit])]
  rw [if_pos (List.find?_isSome.mpr ⟨u, hu, hmatch⟩)]

/-- Witness for C6: the conflict error on a concrete state where the submitted
username already belongs to alice. -/
theorem media_c6_register_conflict_witness :
    registerUser baseState regConflictReq =
      (baseState,
       Except.error { statusCode := 409, message := "Username/email/github already exists" }) :=
  media_c6_register_conflict baseState regConflictReq aliceUser
    (by decide) (by decide) (by decide) (by decide) (by decide)

/-- C7: project creation by an authenticated user resolves the comma-separated
owner-username list; when some listed username has no matching user the whole
operation fails with the 404 error naming a missing username and the state is
unchanged (no Project persisted, the creating user's projects list untouched);
when every owner resolves, the Project is persisted and its id appended to the
creating user's projects list. -/
theorem media_c7_add_project (st : State) (uid : Nat) (r : AddProjectReq)
    (ownersRaw techRaw : String)
    (ho : r.ownersUsernames = some ownersRaw) (htech : r.techStack = some techRaw)
    (hreq : (truthyStr r.name && truthyStr r.repoId && truthyStr r.url &&
             truthyStr r.description && truthyStr r.domain) = true) :
    ((∃ un ∈ splitTrim ownersRaw, st.users.find? (fun u => u.username = un) = none) →
      ∃ un, un ∈ splitTrim ownersRaw ∧
        st.users.find? (fun u => u.username = un) = none ∧
        addProject st (some uid) r =
          (st, Except.error { statusCode := 404,
                              message := "Owner with username " ++ un ++ " not found" })) ∧
    (∀ owners, resolveOwners st (splitTrim ownersRaw) = Except.ok owners →
      ∀ me, st.users.find? (fun x => x.uid = uid) = some me →
      ∃ st1 resp, addProject st (some uid) r = (st1, Except.ok resp) ∧
        resp.status = 200 ∧
        resp.project.pid = st.nextPid ∧
        resp.project ∈ st1.projectsDb ∧
        resp.project.owners = owners.map (fun o => o.uid) ∧
        (∃ me1 ∈ st1.users, me1.uid = uid ∧
          me1.projects = me.projects ++ [resp.project.pid])) := by
  constructor
  · intro hex
    rcases resolveOwners_error_of_missing st _ hex with ⟨un, hm, hn, herr⟩
    refine ⟨un, hm, hn, ?_⟩
    unfold addProject
    dsimp only
    rw [ho, htech]
    dsimp only
    rw [if_neg (by simp [hreq])]
    rw [herr]
  · intro owners hres me hfind
    obtain ⟨⟨⟨⟨hb1, hb2⟩, hb3⟩, hb4⟩, hb5⟩ :
        (((truthyStr r.name = true ∧ truthyStr r.repoId = true) ∧ truthyStr r.url = true) ∧
          truthyStr r.description = true) ∧ truthyStr r.domain = true := by
      simpa [Bool.and_eq_true] using hreq
    obtain ⟨nm, hnm⟩ := truthy_some hb1
    obtain ⟨rep, hrep⟩ := truthy_some hb2
    obtain ⟨theUrl, hurl⟩ := truthy_some hb3
    obtain ⟨de, hde⟩ := truthy_some hb4
    obtain ⟨dom, hdom⟩ := truthy_some hb5
    have hme : me.uid = uid := by
      have hpme := List.find?_some hfind
      simpa using hpme
    unfold addProject
    dsimp only
    rw [ho, htech]
    dsimp only
    rw [if_neg (by simp [hreq])]
    rw [hres]
    dsimp only
    rw [hnm, hrep, hurl, hde, hdom]
    dsimp only
    refine ⟨_, _, rfl, rfl, rfl, ?_, rfl, ?_⟩
    · exact List.mem_append_right _ (List.mem_singleton.mpr rfl)
    · have hmem := List.mem_map_of_mem (fun u2 =>
        if u2.uid = uid then { u2 with projects := u2.projects ++ [st.nextPid] } else u2)
        (List.mem_of_find?_eq_some hfind)
      dsimp only at hmem
      rw [if_pos hme] at hmem
      exact ⟨_, hmem, hme, rfl⟩

/-- Witness for C7: a successful concrete project creation by alice, listing
alice as the only owner. -/
theorem media_c7_add_project_witness :
    ∃ st1 resp, addProject baseState (some 0) projReq = (st1, Except.ok resp) ∧
      resp.status = 200 ∧
      resp.project.pid = baseState.nextPid ∧
      resp.project ∈ st1.projectsDb ∧
      resp.project.owners = [aliceUser].map (fun o => o.uid) ∧
      (∃ me1 ∈ st1.users, me1.uid = 0 ∧
        me1.projects = aliceUser.projects ++ [resp.project.pid]) :=
  (media_c7_add_project baseState 0 projReq "alice" "js" rfl rfl (by decide)).2
    [aliceUser] (by decide) aliceUser (by decide)

/-- C8 counterexample: a registration request missing its fullname key slips past
the emptiness check (optional chaining makes undefined trim to undefined, not the
empty string), so on a concrete input registration does not fail with 400: it
completes with 201 and the OTP side effect has happened. -/
theorem media_c8_counterexample :
    (registerUser emptyState regMissingFullname).2 =
      Except.ok { status := 201, body :=
        { fullname := none, profilePic := some "", coverImg := some "",
          username := some "alice", email := some "alice@mail.com",
          githubId := some "alice-gh", password := some "pw1",
          position := some "dev", description := some "desc" } } ∧
    (registerUser emptyState regMissingFullname).1.otps ≠ [] := by
  refine ⟨?_, ?_⟩ <;> decide

/-- C8 amended: a registration request in which some required field is present
but empty (after trimming), or whose email or GitHub handle fails the shape
check, fails with a 400 validation error before any OTP generation or
persistence side effect (the state is unchanged); a field that is missing
entirely is not caught by the emptiness check. -/
theorem media_c8_register_validation (st : State) (r : RegisterReq) :
    ((isEmptyTrim r.username || isEmptyTrim r.fullname || isEmptyTrim r.email ||
      isEmptyTrim r.password || isEmptyTrim r.githubId || isEmptyTrim r.position ||
      isEmptyTrim r.description) = true →
      registerUser st r =
        (st, Except.error { statusCode := 400, message := "All fields are required" })) ∧
    ((isEmptyTrim r.username || isEmptyTrim r.fullname || isEmptyTrim r.email ||
      isEmptyTrim r.password || isEmptyTrim r.githubId || isEmptyTrim r.position ||
      isEmptyTrim r.description) = false →
      isValidEmail r.email = false →
      registerUser st r =
        (st, Except.error { statusCode := 400, message := "Email not acceptable" })) ∧
    ((isEmptyTrim r.username || isEmptyTrim r.fullname || isEmptyTrim r.email ||
      isEmptyTrim r.password || isEmptyTrim r.githubId || isEmptyTrim r.position ||
      isEmptyTrim r.description) = false →
      isValidEmail r.email = true →
      isValidGitHubId r.githubId = false →
      registerUser st r =
        (st, Except.error { statusCode := 400, message := "Github ID not acceptable" })) := by
  refine ⟨?_, ?_, ?_⟩
  · intro hempty
    unfold registerUser
    rw [if_pos hempty]
  · intro hempty hemail
    unfold registerUser
    rw [if_neg (by simp [hempty])]
    rw [if_pos (by simp [hemail])]
  · intro hempty hemail hgit
    unfold registerUser
    rw [if_neg (by simp [hempty])]
    rw [if_neg (by simp [hemail])]
    rw [if_pos (by simp [hgit])]

/-- Witness for C8 amended: a concrete request with a blank fullname is rejected
with the 400 error and the state is unchanged. -/
theorem media_c8_register_validation_witness :
    registerUser emptyState regEmptyFullname =
      (emptyState, Except.error { statusCode := 400, message := "All fields are required" }) :=
  (media_c8_register_validation emptyState regEmptyFullname).1 (by decide)

end MediaStream
